import Mathlib

/-!
Shallow embedding of `colorlog.hpp` (repository bgorlick/colorlog_cpp).

The embedding models the synchronous `Logger` class, the `AsyncLogger`
queue/worker system, the terminal-capability cache and the color plumbing.
C++ streams are modelled as line sinks: `std::cerr` is a list of written
lines, the filesystem maps a path to the list of lines appended to the
file at that path.  An `std::ofstream` is modelled by its open flag, its
fail state (failbit) and the path it was opened on: `open` on an already
open stream fails (sets failbit, changes nothing else), and writes on a
failed stream are silently dropped, following the C++ iostreams
semantics the source relies on.  C++ exceptions derived from
`std::exception` are modelled as `Except` error values carrying the
`what()` message.  The compile-time `LOG_LEVEL` macro is a `Nat`
parameter `floor` of the logging functions; `LOG_LEVEL` names its
default value.  The process-wide globals `is_global_colored` and the
`TerminalCache` singleton are explicit parameters `global` and `tc`.
-/

namespace Colorlog

/-- `enum class LogLevel { debug, info, warn, error, fatal, trace, unknown }`
(declaration order of the source, which fixes the underlying values). -/
inductive LogLevel where
  | debug | info | warn | error | fatal | trace | unknown
deriving DecidableEq, Repr

/-- `static_cast<int>(level)`: the underlying value of the enumerator,
given by its position in the declaration order. -/
def LogLevel.rank : LogLevel → Nat
  | .debug => 0
  | .info => 1
  | .warn => 2
  | .error => 3
  | .fatal => 4
  | .trace => 5
  | .unknown => 6

/-- `#define LOG_LEVEL_DEBUG 0` -/
def LOG_LEVEL_DEBUG : Nat := 0
/-- `#define LOG_LEVEL_INFO 1` -/
def LOG_LEVEL_INFO : Nat := 1
/-- `#define LOG_LEVEL_WARN 2` -/
def LOG_LEVEL_WARN : Nat := 2
/-- `#define LOG_LEVEL_ERROR 3` -/
def LOG_LEVEL_ERROR : Nat := 3
/-- `#define LOG_LEVEL_FATAL 4` -/
def LOG_LEVEL_FATAL : Nat := 4
/-- `#define LOG_LEVEL_TRACE 5` -/
def LOG_LEVEL_TRACE : Nat := 5

/-- `#ifndef LOG_LEVEL / #define LOG_LEVEL LOG_LEVEL_DEBUG`: the default
compile-time minimum floor. -/
def LOG_LEVEL : Nat := LOG_LEVEL_DEBUG

/-- `enum class OutputMode { Console, File, Both }` -/
inductive OutputMode where
  | Console | File | Both
deriving DecidableEq, Repr

/-- `Logger::logLevelToString`: the fixed level-name table. -/
def logLevelToString : LogLevel → String
  | .debug => "DEBUG"
  | .info => "INFO"
  | .warn => "WARNING"
  | .error => "ERROR"
  | .fatal => "FATAL"
  | .trace => "TRACE"
  | .unknown => "UNKNOWN"

/-- The destinations a `Logger` write can target: `std::cout`,
`std::cerr`, or the logger's `std::ofstream` member `log_file_`. -/
inductive StreamRef where
  | cout | cerr | fileStream
deriving DecidableEq, Repr

/-- The `TerminalCache` singleton: the lazily computed, then immutable,
terminal status of stdout and stderr. -/
structure TerminalCache where
  stdoutTty : Bool
  stderrTty : Bool
deriving DecidableEq, Repr

/-- `TerminalCache::is_terminal`: the cached status for `std::cout` and
`std::cerr`; every other stream reports `false`. -/
def TerminalCache.is_terminal (tc : TerminalCache) : StreamRef → Bool
  | .cout => tc.stdoutTty
  | .cerr => tc.stderrTty
  | .fileStream => false

/-- `check_color(stream)`: the global color flag `is_global_colored`
(parameter `global`) conjoined with the cached terminal status. -/
def check_color (global : Bool) (tc : TerminalCache) (s : StreamRef) : Bool :=
  global && tc.is_terminal s

/-- `apply_code(stream, code)` writes `code` to the stream iff
`check_color` holds; modelled as the text it contributes to the line
being written. -/
def apply_code (global : Bool) (tc : TerminalCache) (s : StreamRef) (code : String) : String :=
  if check_color global tc s then code else ""

/-- The non-Windows `ColorDefs` table of ANSI codes per level
(`"\033[.."` in the source, `\x1b` here). -/
def ColorDefs : LogLevel → String
  | .debug => "\x1b[36m"
  | .info => "\x1b[1;33m"
  | .warn => "\x1b[33m"
  | .error => "\x1b[1;31m"
  | .fatal => "\x1b[35m"
  | .trace => "\x1b[32m"
  | .unknown => "\x1b[34m"

/-- A `std::exception` value: its dynamic type name (`typeid(e).name()`)
and its `what()` message. -/
structure Exn where
  kindName : String
  what : String
deriving DecidableEq, Repr

/-- `using LogFormatter = std::function<std::string(LogLevel, const
std::string&, int, const std::string&)>`; the formatter may throw, so it
returns `Except` with the thrown exception's message. -/
def LogFormatter : Type :=
  LogLevel → String → Int → String → Except String String

/-- The default formatter of `LoggerConfig`: prepends `file:line ` when
the file is nonempty and the line is positive, else just the message. -/
def default_formatter : LogFormatter :=
  fun _ file line msg =>
    .ok ((if file ≠ "" ∧ line > 0 then file ++ ":" ++ toString line ++ " " else "") ++ msg)

/-- `struct LoggerConfig` with its default member values. -/
structure LoggerConfig where
  log_level : LogLevel := .info
  output_mode : OutputMode := .Console
  log_file_name : String := ""
  formatter : LogFormatter := default_formatter

/-- The observable world: the lines written to `std::cout` and
`std::cerr`, and for each path the lines appended to the file there. -/
structure World where
  coutLines : List String
  cerrLines : List String
  fs : String → List String

/-- The empty world: nothing written anywhere. -/
def World.empty : World :=
  { coutLines := [], cerrLines := [], fs := fun _ => [] }

/-- Append one line to `std::cerr`. -/
def World.writeCerr (w : World) (l : String) : World :=
  { w with cerrLines := w.cerrLines ++ [l] }

/-- An `std::ofstream`: open flag, fail state (failbit) and the path the
stream was opened on. -/
structure OFStream where
  isOpen : Bool
  failed : Bool
  path : String

/-- A default-constructed (closed) `std::ofstream`. -/
def OFStream.closed : OFStream :=
  { isOpen := false, failed := false, path := "" }

/-- `ofstream::open(filename, std::ios::out | std::ios::app)`: on an
already open stream the underlying filebuf open fails and failbit is
set; otherwise the stream opens on `filename` in append mode. -/
def OFStream.openApp (f : OFStream) (filename : String) : OFStream :=
  if f.isOpen then { f with failed := true }
  else { isOpen := true, failed := false, path := filename }

/-- `log_file_ << line << std::endl`: appends the line at the stream's
path when the stream is open and not in a fail state; a write on a
failed stream is silently dropped. -/
def World.writeFile (w : World) (f : OFStream) (l : String) : World :=
  if f.isOpen ∧ ¬ f.failed then
    { w with fs := fun p => if p = f.path then w.fs p ++ [l] else w.fs p }
  else w

/-- An error handler `std::function<void(const std::exception&)>`,
modelled by its effect on the world. -/
def Handler : Type := Exn → World → World

/-- `handlers_[exception_type] = handler` on the `unordered_map`:
overwrite when the key is present, insert otherwise. -/
def mapInsert (m : List (String × Handler)) (k : String) (v : Handler) :
    List (String × Handler) :=
  match m with
  | [] => [(k, v)]
  | (k', v') :: rest => if k' = k then (k, v) :: rest else (k', v') :: mapInsert rest k v

/-- `handlers_.find(key)` on the `unordered_map`. -/
def mapFind (m : List (String × Handler)) (k : String) : Option Handler :=
  match m with
  | [] => none
  | (k', v) :: rest => if k' = k then some v else mapFind rest k

/-- The `Logger` class state. -/
structure Logger where
  log_level_ : LogLevel
  output_mode_ : OutputMode
  formatter_ : LogFormatter
  log_level_colors_ : LogLevel → String
  log_file_ : OFStream
  handlers_ : List (String × Handler)
  default_handler_ : Handler

/-- The constructor's default error handler: writes
`Unhandled exception: <what>` to `std::cerr`. -/
def builtin_default_handler : Handler :=
  fun e w => w.writeCerr ("Unhandled exception: " ++ e.what)

/-- The `Logger(const LoggerConfig&)` constructor: copies the config,
installs the `ColorDefs` color table and the default error handler, and
opens the file sink in append mode when a file name is configured. -/
def mkLogger (config : LoggerConfig) : Logger :=
  { log_level_ := config.log_level
    output_mode_ := config.output_mode
    formatter_ := config.formatter
    log_level_colors_ := ColorDefs
    log_file_ :=
      if config.log_file_name ≠ "" then OFStream.closed.openApp config.log_file_name
      else OFStream.closed
    handlers_ := []
    default_handler_ := builtin_default_handler }

/-- `Logger::set_log_level`. -/
def Logger.set_log_level (lg : Logger) (level : LogLevel) : Logger :=
  { lg with log_level_ := level }

/-- `Logger::set_log_level_color`. -/
def Logger.set_log_level_color (lg : Logger) (level : LogLevel) (color : String) : Logger :=
  { lg with log_level_colors_ := fun l => if l = level then color else lg.log_level_colors_ l }

/-- `Logger::set_output_mode`. -/
def Logger.set_output_mode (lg : Logger) (mode : OutputMode) : Logger :=
  { lg with output_mode_ := mode }

/-- `Logger::set_log_file`: calls `open(filename, out | app)` on the
member stream (with no preceding `close()`). -/
def Logger.set_log_file (lg : Logger) (filename : String) : Logger :=
  { lg with log_file_ := lg.log_file_.openApp filename }

/-- `Logger::set_formatter`. -/
def Logger.set_formatter (lg : Logger) (formatter : LogFormatter) : Logger :=
  { lg with formatter_ := formatter }

/-- `Logger::register_error_handler`. -/
def Logger.register_error_handler (lg : Logger) (exception_type : String) (handler : Handler) :
    Logger :=
  { lg with handlers_ := mapInsert lg.handlers_ exception_type handler }

/-- `Logger::set_default_error_handler`. -/
def Logger.set_default_error_handler (lg : Logger) (handler : Handler) : Logger :=
  { lg with default_handler_ := handler }

/-- `Logger::getLogStream`: the file stream in File or Both mode when
the file is open, else `std::cerr`. -/
def Logger.getLogStream (lg : Logger) : StreamRef :=
  if lg.output_mode_ = .File ∧ lg.log_file_.isOpen then .fileStream
  else if lg.output_mode_ = .Both ∧ lg.log_file_.isOpen then .fileStream
  else .cerr

/-- One `logStream << line << std::endl` write of the `log` body,
dispatched on which stream `getLogStream` returned. -/
def Logger.writeStream (lg : Logger) (w : World) (s : StreamRef) (l : String) : World :=
  match s with
  | .cout => { w with coutLines := w.coutLines ++ [l] }
  | .cerr => w.writeCerr l
  | .fileStream => w.writeFile lg.log_file_ l

/-- The level text put between the brackets on the `logStream` write:
colored (via `applyLogLevelColor`, i.e. `apply_code`, plus the reset
code) when `check_color` holds for the destination, plain otherwise. -/
def consoleLevelText (global : Bool) (tc : TerminalCache) (s : StreamRef)
    (colors : LogLevel → String) (level : LogLevel) : String :=
  if check_color global tc s then
    apply_code global tc s (colors level) ++ logLevelToString level ++ "\x1b[0m"
  else logLevelToString level

/-- `msg` rendering of `Logger::log` for `T = std::string`: `std::string`
is `Iterable`, so `if constexpr (Iterable<T>)` takes the iterable branch
and streams the characters one by one into the `ostringstream`. -/
def renderIterableString (s : String) : String :=
  s.data.foldl String.push ""

/-- `oss << msg` for a directly printable message already in textual
form: the text itself. -/
def renderPrintable (s : String) : String := s

/-- The body of `Logger::log` after `msg` has been rendered to the
string `oss.str()`: the compile-time floor check, the formatter call,
the destination selection, the bracketed (and possibly colored) write to
`getLogStream()`, the extra uncolored file write in Both mode, and the
`catch (const std::exception&)` branch reporting a formatter failure to
`std::cerr`. -/
def Logger.logRendered (floor : Nat) (global : Bool) (tc : TerminalCache) (lg : Logger)
    (w : World) (level : LogLevel) (file : String) (line : Int) (rendered : String) : World :=
  if level.rank < floor then w
  else
    match lg.formatter_ level file line rendered with
    | .error e => w.writeCerr ("Logging exception: " ++ e)
    | .ok formattedMsg =>
      let logStream := lg.getLogStream
      let w1 := lg.writeStream w logStream
        ("[" ++ consoleLevelText global tc logStream lg.log_level_colors_ level
          ++ "] " ++ formattedMsg)
      if lg.output_mode_ = .Both ∧ lg.log_file_.isOpen then
        lg.writeStream w1 .fileStream
          ("[" ++ logLevelToString level ++ "] " ++ formattedMsg)
      else w1

/-- `Logger::log(level, file, line, msg)` for a `std::string` message:
renders the message through the iterable branch, then runs the
post-render pipeline. -/
def Logger.log (floor : Nat) (global : Bool) (tc : TerminalCache) (lg : Logger)
    (w : World) (level : LogLevel) (file : String) (line : Int) (msg : String) : World :=
  lg.logRendered floor global tc w level file line (renderIterableString msg)

/-- The world after the first two steps of `Logger::handle_error`:
`error(context, 0, e.what())` followed by `log_stack_trace()` (which
writes `Stack trace:` and then the opaque backtrace lines `bt` to
`std::cerr`). -/
def Logger.handle_error_pre (floor : Nat) (global : Bool) (tc : TerminalCache) (lg : Logger)
    (w : World) (e : Exn) (context : String) (bt : List String) : World :=
  bt.foldl World.writeCerr
    ((lg.log floor global tc w .error context 0 e.what).writeCerr "Stack trace:")

/-- `Logger::handle_error(e, context)`: error-level log with the context
in the file slot and line 0, stack trace, then dispatch to the handler
registered under `typeid(e).name()` or, failing that, to the default
handler. -/
def Logger.handle_error (floor : Nat) (global : Bool) (tc : TerminalCache) (lg : Logger)
    (w : World) (e : Exn) (context : String) (bt : List String) : World :=
  let w2 := lg.handle_error_pre floor global tc w e context bt
  match mapFind lg.handlers_ e.kindName with
  | some h => h e w2
  | none => lg.default_handler_ e w2

/-- Boolean substring test on strings, used to state containment of a
message inside a written line. -/
def strContains (hay needle : String) : Bool :=
  (List.range (hay.length + 1)).any
    (fun i => (hay.data.drop i).take needle.length = needle.data)

/-! ## AsyncLogger

The `AsyncLogger` wraps one `Logger`, a FIFO `std::queue<LogEntry>`, a
mutex, a condition variable, a stop flag and one worker thread.  One
iteration of `processQueue` holds `queue_mutex_` from the return of
`cv_.wait` through the inner drain loop and the stop check, so it is one
atomic step: drain the entire queue, forwarding each entry to the
wrapped `Logger::log` in FIFO order, then exit iff the stop flag was
set; a wait whose predicate is false (empty queue, no stop) is a no-op.
`AsyncLogger::log` appends one entry under the same mutex, and the
destructor sets the stop flag under the mutex, wakes the worker and
joins it.  The model is an interleaving of these three atomic events;
`sink` records the entries the wrapped `Logger::log` has received, in
order. -/

/-- `AsyncLogger::LogEntry`: one queued log request. -/
structure LogEntry where
  level : LogLevel
  file : String
  line : Int
  msg : String
deriving DecidableEq, Repr

/-- The joint state of one `AsyncLogger` and its worker: the pending
queue, the sequence of entries already forwarded to `Logger::log`
(`sink`), the stop flag, and whether `processQueue` has returned. -/
structure AsyncState where
  queue : List LogEntry
  sink : List LogEntry
  stopped : Bool
  workerExited : Bool
deriving DecidableEq, Repr

/-- The state right after the `AsyncLogger` constructor: empty queue,
nothing forwarded, stop flag clear, worker running. -/
def AsyncState.init : AsyncState :=
  { queue := [], sink := [], stopped := false, workerExited := false }

/-- The three atomic events of the `AsyncLogger` system: a producer call
to `AsyncLogger::log` (`enq`), the destructor setting the stop flag
(`stop`), and one wake-up of the `processQueue` worker (`work`). -/
inductive AEvent where
  | enq (r : LogEntry)
  | stop
  | work
deriving DecidableEq, Repr

/-- Effect of one atomic event on the state.  `enq` appends to the FIFO
queue; `stop` sets the stop flag; `work` is one worker iteration: after
the worker has returned it does nothing, otherwise, when the wait
predicate (`!log_queue_.empty() || stop_thread_`) holds, it drains the
whole queue to the wrapped logger and exits iff the stop flag is set. -/
def applyEvent (s : AsyncState) : AEvent → AsyncState
  | .enq r => { s with queue := s.queue ++ [r] }
  | .stop => { s with stopped := true }
  | .work =>
    if s.workerExited then s
    else if s.queue ≠ [] ∨ s.stopped = true then
      { queue := [], sink := s.sink ++ s.queue, stopped := s.stopped,
        workerExited := s.stopped }
    else s

/-- Run a sequence of atomic events from a state. -/
def runEvents (s : AsyncState) (evs : List AEvent) : AsyncState :=
  evs.foldl applyEvent s

/-- Whether an event is an action of the producer side (`log` call or
destructor stop), as opposed to a worker step. -/
def AEvent.isProducer : AEvent → Bool
  | .enq _ => true
  | .stop => true
  | .work => false

/-- The subsequence of producer actions of an event sequence. -/
def producerEvents (evs : List AEvent) : List AEvent :=
  evs.filter AEvent.isProducer

/-! ## Helper lemmas -/

theorem foldl_push_data (l : List Char) :
    ∀ acc : String, (l.foldl String.push acc).data = acc.data ++ l := by
  induction l with
  | nil => intro acc; simp [List.foldl]
  | cons c l ih => intro acc; simp [List.foldl, ih, String.push]

theorem renderIterableString_eq (s : String) : renderIterableString s = s := by
  apply String.ext
  simpa [renderIterableString] using foldl_push_data s.data ""

theorem foldl_writeCerr_cerrLines (bt : List String) :
    ∀ w : World, (bt.foldl World.writeCerr w).cerrLines = w.cerrLines ++ bt := by
  induction bt with
  | nil => intro w; simp [List.foldl]
  | cons b bt ih => intro w; simp [List.foldl, ih, World.writeCerr]

theorem strContains_append_left (a b : String) : strContains (a ++ b) b = true := by
  simp only [strContains, List.any_eq_true, List.mem_range, decide_eq_true_eq]
  refine ⟨a.length, ?_, ?_⟩
  · have h : (a ++ b).length = a.length + b.length := String.length_append a b
    omega
  · have hd : (a ++ b).data = a.data ++ b.data := rfl
    have hlen : a.length = a.data.length := rfl
    have hlenb : b.length = b.data.length := rfl
    rw [hd, hlen, List.drop_left, hlenb, List.take_length]

/-! ## Claim theorems -/

/-- C9 counterexample: the enumeration does not put `trace` lowest; its
declaration order gives `trace` the rank 5 and `debug` the rank 0, so
`trace` does not rank below `debug` as the claimed ascending order
`trace, debug, info, warn, error, fatal, unknown` would require. -/
theorem C9_counterexample :
    ¬ LogLevel.rank .trace < LogLevel.rank .debug ∧
      LogLevel.rank .trace = 5 ∧ LogLevel.rank .debug = 0 := by
  decide

/-- C9 (amended): the `LogLevel` ranks ascend in the declaration order
`debug, info, warn, error, fatal, trace, unknown` (0 through 6), and this
rank is the one `Logger::log` compares against the compile-time floor:
a record whose rank is below the floor is dropped with no side effect. -/
theorem C9_rank_order :
    LogLevel.rank .debug = 0 ∧ LogLevel.rank .info = 1 ∧ LogLevel.rank .warn = 2 ∧
      LogLevel.rank .error = 3 ∧ LogLevel.rank .fatal = 4 ∧ LogLevel.rank .trace = 5 ∧
      LogLevel.rank .unknown = 6 ∧
      ∀ (floor : Nat) (global : Bool) (tc : TerminalCache) (lg : Logger) (w : World)
        (level : LogLevel) (file : String) (line : Int) (msg : String),
        level.rank < floor →
        Logger.log floor global tc lg w level file line msg = w := by
  refine ⟨rfl, rfl, rfl, rfl, rfl, rfl, rfl, ?_⟩
  intro floor global tc lg w level file line msg h
  simp [Logger.log, Logger.logRendered, h]

/-- Witness for C9: at floor 1 a `debug` record (rank 0) is filtered out
and the world is untouched. -/
theorem C9_rank_order_witness :
    LogLevel.rank .debug < 1 ∧
      Logger.log 1 false ⟨false, false⟩ (mkLogger {}) World.empty .debug "" 0 "x" =
        World.empty :=
  ⟨by decide,
    C9_rank_order.2.2.2.2.2.2.2 1 false ⟨false, false⟩ (mkLogger {}) World.empty .debug ""
      0 "x" (by decide)⟩

/-- C10: for a `std::string` message the iterable rendering branch of
`Logger::log` streams the characters one by one and reproduces the
string exactly, so the formatter receives the message text unchanged and
the iterable rendering agrees with the direct printable rendering. -/
theorem C10_string_render_identity (s : String) (floor : Nat) (global : Bool)
    (tc : TerminalCache) (lg : Logger) (w : World) (level : LogLevel) (file : String)
    (line : Int) :
    renderIterableString s = s ∧ renderIterableString s = renderPrintable s ∧
      Logger.log floor global tc lg w level file line s =
        lg.logRendered floor global tc w level file line (renderPrintable s) := by
  refine ⟨renderIterableString_eq s, renderIterableString_eq s, ?_⟩
  simp [Logger.log, renderIterableString_eq, renderPrintable]

/-- C1 counterexample: a logger whose instance threshold was set to
`error` still emits a `debug` record under the default compile-time
floor: `Logger::log` never consults `log_level_`, so a record below the
instance threshold produces output, contradicting the claim. -/
theorem C1_counterexample :
    LogLevel.rank .debug <
        LogLevel.rank ((mkLogger {}).set_log_level .error).log_level_ ∧
      (Logger.log LOG_LEVEL false ⟨false, false⟩ ((mkLogger {}).set_log_level .error)
          World.empty .debug "" 0 "x").cerrLines = ["[DEBUG] x"] := by
  exact ⟨by decide, rfl⟩

/-- C1 (amended): emission is filtered only by the compile-time minimum
floor (`LOG_LEVEL` macro): a record whose rank is below the floor
produces no side effect, and the emission behaviour of `Logger::log` is
completely independent of the instance threshold `log_level_` set via
`LoggerConfig.log_level` or `set_log_level`. -/
theorem C1_floor_only_filtering (floor : Nat) (global : Bool) (tc : TerminalCache)
    (lg : Logger) (w : World) (level : LogLevel) (file : String) (line : Int)
    (msg : String) :
    (level.rank < floor → Logger.log floor global tc lg w level file line msg = w) ∧
      ∀ T : LogLevel,
        Logger.log floor global tc (lg.set_log_level T) w level file line msg =
          Logger.log floor global tc lg w level file line msg := by
  constructor
  · intro h
    simp [Logger.log, Logger.logRendered, h]
  · intro T
    cases lg
    rfl

/-- Witness for C1 (amended): at floor 2 an `info` record (rank 1) is
dropped, and a `fatal` instance threshold does not change the output of
an `info` record. -/
theorem C1_floor_only_filtering_witness :
    LogLevel.rank .info < 2 ∧
      Logger.log 2 false ⟨false, false⟩ (mkLogger {}) World.empty .info "" 0 "y" =
        World.empty ∧
      Logger.log 2 false ⟨false, false⟩ ((mkLogger {}).set_log_level .fatal) World.empty
          .info "" 0 "y" =
        Logger.log 2 false ⟨false, false⟩ (mkLogger {}) World.empty .info "" 0 "y" :=
  ⟨by decide,
    (C1_floor_only_filtering 2 false ⟨false, false⟩ (mkLogger {}) World.empty .info "" 0
          "y").1 (by decide),
    (C1_floor_only_filtering 2 false ⟨false, false⟩ (mkLogger {}) World.empty .info "" 0
          "y").2 .fatal⟩

/-- C5: `Logger::log` is exception safe.  The whole body after the floor
check runs inside `try`/`catch (const std::exception&)`, so `log` is a
total function of the embedding (it always returns a world to the
caller), and a failure thrown while producing the formatted message is
caught inside `log` and reported as a single `Logging exception: <what>`
diagnostic line on `std::cerr`: no exception value reaches the caller. -/
theorem C5_log_catches_formatter_failure (floor : Nat) (global : Bool)
    (tc : TerminalCache) (lg : Logger) (w : World) (level : LogLevel) (file : String)
    (line : Int) (msg : String) (err : String)
    (hacc : floor ≤ level.rank)
    (hthrow : lg.formatter_ level file line (renderIterableString msg) = .error err) :
    Logger.log floor global tc lg w level file line msg =
      w.writeCerr ("Logging exception: " ++ err) := by
  simp [Logger.log, Logger.logRendered, Nat.not_lt.mpr hacc, hthrow]

/-- A formatter that always throws (models a user formatter throwing a
`std::exception` with message `fmt boom`). -/
def throwingFormatter : LogFormatter := fun _ _ _ _ => .error "fmt boom"

/-- Witness for C5: with a throwing formatter installed, the accepted
`info` record produces exactly the diagnostic line on `std::cerr`. -/
theorem C5_log_catches_formatter_failure_witness :
    (0 : Nat) ≤ LogLevel.rank .info ∧
      ((mkLogger {}).set_formatter throwingFormatter).formatter_ .info "" 0
          (renderIterableString "m") = .error "fmt boom" ∧
      Logger.log 0 false ⟨false, false⟩ ((mkLogger {}).set_formatter throwingFormatter)
          World.empty .info "" 0 "m" =
        World.empty.writeCerr ("Logging exception: " ++ "fmt boom") :=
  ⟨Nat.zero_le _, rfl,
    C5_log_catches_formatter_failure 0 false ⟨false, false⟩
      ((mkLogger {}).set_formatter throwingFormatter) World.empty .info "" 0 "m"
      "fmt boom" (Nat.zero_le _) rfl⟩

/-- C6: for an accepted record whose destination stream is the console
(`std::cerr`), the written line carries the ANSI wrapping around the
level name iff the destination is color-capable (cached terminal
status) and the global color flag is enabled — which is exactly
`check_color` — and every line appended to any file path is the plain
`[<LEVEL>] <formatted>` line: the file sink is never color-decorated
(a file stream is never reported as a terminal). -/
theorem C6_decoration_iff (floor : Nat) (global : Bool) (tc : TerminalCache)
    (lg : Logger) (w : World) (level : LogLevel) (file : String) (line : Int)
    (msg : String) (fm : String)
    (hacc : floor ≤ level.rank)
    (hok : lg.formatter_ level file line (renderIterableString msg) = .ok fm) :
    (consoleLevelText global tc .cerr lg.log_level_colors_ level =
        if global && tc.stderrTty then
          lg.log_level_colors_ level ++ (logLevelToString level ++ "\x1b[0m")
        else logLevelToString level) ∧
      (lg.getLogStream = .cerr →
        (Logger.log floor global tc lg w level file line msg).cerrLines =
          w.cerrLines ++
            ["[" ++ consoleLevelText global tc .cerr lg.log_level_colors_ level ++ "] "
              ++ fm]) ∧
      ∀ p : String, ∃ n : Nat,
        (Logger.log floor global tc lg w level file line msg).fs p =
          w.fs p ++ List.replicate n ("[" ++ logLevelToString level ++ "] " ++ fm) := by
  refine ⟨?_, ?_, ?_⟩
  · by_cases hcc : check_color global tc .cerr = true
    · have hg : (global && tc.stderrTty) = true := hcc
      simp [consoleLevelText, apply_code, hcc, hg, String.append_assoc]
    · have hg : (global && tc.stderrTty) = false := by
        simpa [check_color, TerminalCache.is_terminal] using hcc
      simp [consoleLevelText, hcc, hg]
  · intro hcs
    have hboth : ¬ (lg.output_mode_ = .Both ∧ lg.log_file_.isOpen) := by
      intro hb
      rw [Logger.getLogStream] at hcs
      by_cases hf : lg.output_mode_ = .File ∧ lg.log_file_.isOpen
      · simp [hf] at hcs
      · simp [hf, hb] at hcs
    simp [Logger.log, Logger.logRendered, Nat.not_lt.mpr hacc, hok, hboth, hcs,
      Logger.writeStream, World.writeCerr]
  · intro p
    by_cases hcs : lg.getLogStream = .cerr
    · have hboth : ¬ (lg.output_mode_ = .Both ∧ lg.log_file_.isOpen) := by
        intro hb
        rw [Logger.getLogStream] at hcs
        by_cases hf : lg.output_mode_ = .File ∧ lg.log_file_.isOpen
        · simp [hf] at hcs
        · simp [hf, hb] at hcs
      refine ⟨0, ?_⟩
      simp [Logger.log, Logger.logRendered, Nat.not_lt.mpr hacc, hok, hboth, hcs,
        Logger.writeStream, World.writeCerr]
    · have hfs : lg.getLogStream = .fileStream := by
        rw [Logger.getLogStream] at hcs ⊢
        by_cases hf : lg.output_mode_ = .File ∧ lg.log_file_.isOpen
        · simp [hf]
        · by_cases hb : lg.output_mode_ = .Both ∧ lg.log_file_.isOpen
          · simp [hf, hb]
          · simp [hf, hb] at hcs
      have hopen : lg.log_file_.isOpen = true := by
        rw [Logger.getLogStream] at hfs
        by_cases hf : lg.output_mode_ = .File ∧ lg.log_file_.isOpen
        · exact hf.2
        · by_cases hb : lg.output_mode_ = .Both ∧ lg.log_file_.isOpen
          · exact hb.2
          · simp [hf, hb] at hfs
      have hplain : consoleLevelText global tc .fileStream lg.log_level_colors_ level =
          logLevelToString level := by
        simp [consoleLevelText, check_color, TerminalCache.is_terminal]
      by_cases hfail : lg.log_file_.failed = true
      · refine ⟨0, ?_⟩
        by_cases hb : lg.output_mode_ = .Both <;>
          simp [Logger.log, Logger.logRendered, Nat.not_lt.mpr hacc, hok, hfs, hopen,
            hb, Logger.writeStream, World.writeFile, hfail]
      · have hfl : lg.log_file_.failed = false := by
          simpa using hfail
        by_cases hp : p = lg.log_file_.path
        · by_cases hb : lg.output_mode_ = .Both
          · refine ⟨2, ?_⟩
            simp [Logger.log, Logger.logRendered, Nat.not_lt.mpr hacc, hok, hfs, hopen,
              hb, Logger.writeStream, World.writeFile, hfl, hp, hplain]
          · refine ⟨1, ?_⟩
            simp [Logger.log, Logger.logRendered, Nat.not_lt.mpr hacc, hok, hfs, hopen,
              hb, Logger.writeStream, World.writeFile, hfl, hp, hplain]
        · refine ⟨0, ?_⟩
          by_cases hb : lg.output_mode_ = .Both <;>
            simp [Logger.log, Logger.logRendered, Nat.not_lt.mpr hacc, hok, hfs, hopen,
              hb, Logger.writeStream, World.writeFile, hfl, hp]

/-- Witness for C6: an accepted `info` record on a color-capable stderr
with the global flag on yields the decorated console line. -/
theorem C6_decoration_iff_witness :
    (0 : Nat) ≤ LogLevel.rank .info ∧
      (mkLogger {}).formatter_ .info "" 0 (renderIterableString "hi") = .ok "hi" ∧
      (Logger.log 0 true ⟨false, true⟩ (mkLogger {}) World.empty .info "" 0
          "hi").cerrLines =
        ["[" ++ consoleLevelText true ⟨false, true⟩ .cerr (mkLogger {}).log_level_colors_
            .info ++ "] " ++ "hi"] := by
  refine ⟨Nat.zero_le _, rfl, ?_⟩
  have h := (C6_decoration_iff 0 true ⟨false, true⟩ (mkLogger {}) World.empty .info "" 0
    "hi" "hi" (Nat.zero_le _) rfl).2.1 rfl
  simpa [World.empty] using h

/-- C2 counterexample: in Both mode with an open file the accepted
record writes nothing to the error stream — `getLogStream` returns the
file stream in Both mode, so both the "console" write and the file write
land in the file, which therefore receives the line twice.  The claim's
"one decorated line to the error stream and one uncolored line to the
file" is false at this input. -/
theorem C2_counterexample :
    (mkLogger { output_mode := .Both, log_file_name := "t.log" }).output_mode_ =
        .Both ∧
      (Logger.log LOG_LEVEL false ⟨false, false⟩
          (mkLogger { output_mode := .Both, log_file_name := "t.log" }) World.empty
          .info "" 0 "hi").cerrLines = [] ∧
      (Logger.log LOG_LEVEL false ⟨false, false⟩
          (mkLogger { output_mode := .Both, log_file_name := "t.log" }) World.empty
          .info "" 0 "hi").fs "t.log" = ["[INFO] hi", "[INFO] hi"] :=
  ⟨rfl, rfl, rfl⟩

/-- C2 (amended): destination selection for an accepted record with a
working (non-failed) file stream.  Console mode writes the decorated
line to the error stream; File mode writes the plain line to the file
sink, falling back to the error stream when the file is not open; Both
mode with an open file sends *both* lines to the file (the line of the
console write, undecorated because a file stream is never
color-capable, then the uncolored file line) and nothing to the error
stream, while Both mode with no open file writes one line to the error
stream only. -/
theorem C2_destination_by_mode (floor : Nat) (global : Bool) (tc : TerminalCache)
    (lg : Logger) (w : World) (level : LogLevel) (file : String) (line : Int)
    (msg : String) (fm : String)
    (hacc : floor ≤ level.rank)
    (hok : lg.formatter_ level file line (renderIterableString msg) = .ok fm)
    (hgood : lg.log_file_.failed = false) :
    let res := Logger.log floor global tc lg w level file line msg
    let plain := "[" ++ logLevelToString level ++ "] " ++ fm
    let cline :=
      "[" ++ consoleLevelText global tc .cerr lg.log_level_colors_ level ++ "] " ++ fm
    (lg.output_mode_ = .Console →
        res.cerrLines = w.cerrLines ++ [cline] ∧ ∀ p, res.fs p = w.fs p) ∧
      (lg.output_mode_ = .File → lg.log_file_.isOpen = true →
        res.cerrLines = w.cerrLines ∧
          ∀ p, res.fs p =
            if p = lg.log_file_.path then w.fs p ++ [plain] else w.fs p) ∧
      (lg.output_mode_ = .File → lg.log_file_.isOpen = false →
        res.cerrLines = w.cerrLines ++ [cline] ∧ ∀ p, res.fs p = w.fs p) ∧
      (lg.output_mode_ = .Both → lg.log_file_.isOpen = true →
        res.cerrLines = w.cerrLines ∧
          ∀ p, res.fs p =
            if p = lg.log_file_.path then w.fs p ++ [plain, plain] else w.fs p) ∧
      (lg.output_mode_ = .Both → lg.log_file_.isOpen = false →
        res.cerrLines = w.cerrLines ++ [cline] ∧ ∀ p, res.fs p = w.fs p) := by
  have hplain : consoleLevelText global tc .fileStream lg.log_level_colors_ level =
      logLevelToString level := by
    simp [consoleLevelText, check_color, TerminalCache.is_terminal]
  refine ⟨?_, ?_, ?_, ?_, ?_⟩
  · intro hm
    constructor
    · simp [Logger.log, Logger.logRendered, Nat.not_lt.mpr hacc, hok, hm,
        Logger.getLogStream, Logger.writeStream, World.writeCerr]
    · intro p
      simp [Logger.log, Logger.logRendered, Nat.not_lt.mpr hacc, hok, hm,
        Logger.getLogStream, Logger.writeStream, World.writeCerr]
  · intro hm hopen
    constructor
    · simp [Logger.log, Logger.logRendered, Nat.not_lt.mpr hacc, hok, hm, hopen, hgood,
        Logger.getLogStream, Logger.writeStream, World.writeFile, hplain]
    · intro p
      by_cases hp : p = lg.log_file_.path <;>
        simp [Logger.log, Logger.logRendered, Nat.not_lt.mpr hacc, hok, hm, hopen,
          hgood, Logger.getLogStream, Logger.writeStream, World.writeFile, hplain, hp]
  · intro hm hopen
    constructor
    · simp [Logger.log, Logger.logRendered, Nat.not_lt.mpr hacc, hok, hm, hopen,
        Logger.getLogStream, Logger.writeStream, World.writeCerr]
    · intro p
      simp [Logger.log, Logger.logRendered, Nat.not_lt.mpr hacc, hok, hm, hopen,
        Logger.getLogStream, Logger.writeStream, World.writeCerr]
  · intro hm hopen
    constructor
    · simp [Logger.log, Logger.logRendered, Nat.not_lt.mpr hacc, hok, hm, hopen, hgood,
        Logger.getLogStream, Logger.writeStream, World.writeFile, hplain]
    · intro p
      by_cases hp : p = lg.log_file_.path <;>
        simp [Logger.log, Logger.logRendered, Nat.not_lt.mpr hacc, hok, hm, hopen,
          hgood, Logger.getLogStream, Logger.writeStream, World.writeFile, hplain, hp]
  · intro hm hopen
    constructor
    · simp [Logger.log, Logger.logRendered, Nat.not_lt.mpr hacc, hok, hm, hopen,
        Logger.getLogStream, Logger.writeStream, World.writeCerr]
    · intro p
      simp [Logger.log, Logger.logRendered, Nat.not_lt.mpr hacc, hok, hm, hopen,
        Logger.getLogStream, Logger.writeStream, World.writeCerr]

/-- Witness for C2 (amended): a File-mode logger with an open file at
`a.log` sends the accepted record to the file only. -/
theorem C2_destination_by_mode_witness :
    (0 : Nat) ≤ LogLevel.rank .info ∧
      (mkLogger { output_mode := .File, log_file_name := "a.log" }).formatter_ .info ""
          0 (renderIterableString "m") = .ok "m" ∧
      (Logger.log 0 false ⟨false, false⟩
          (mkLogger { output_mode := .File, log_file_name := "a.log" }) World.empty
          .info "" 0 "m").cerrLines = [] ∧
      (Logger.log 0 false ⟨false, false⟩
          (mkLogger { output_mode := .File, log_file_name := "a.log" }) World.empty
          .info "" 0 "m").fs "a.log" = ["[INFO] m"] := by
  refine ⟨Nat.zero_le _, rfl, ?_, ?_⟩
  · have h := ((C2_destination_by_mode 0 false ⟨false, false⟩
      (mkLogger { output_mode := .File, log_file_name := "a.log" }) World.empty .info ""
      0 "m" "m" (Nat.zero_le _) rfl rfl).2.1 rfl rfl).1
    simpa [World.empty] using h
  · have h := ((C2_destination_by_mode 0 false ⟨false, false⟩
      (mkLogger { output_mode := .File, log_file_name := "a.log" }) World.empty .info ""
      0 "m" "m" (Nat.zero_le _) rfl rfl).2.1 rfl rfl).2 "a.log"
    simpa [World.empty] using h

/-- C4 counterexample: `handle_error(RuntimeError("boom"), "ctx")` on a
default-configured logger.  `handle_error` forwards the context as the
source-file slot with line 0 (`error(context, 0, e.what())`), and the
default formatter drops the file prefix when the line is not positive,
so the error-level line is `[ERROR] boom`: no written line contains
"ctx", contradicting the claim that the line contains both the message
and the context. -/
theorem C4_counterexample :
    (Logger.handle_error LOG_LEVEL false ⟨false, false⟩ (mkLogger {}) World.empty
          ⟨"St13runtime_error", "boom"⟩ "ctx" []).cerrLines =
        ["[ERROR] boom", "Stack trace:", "Unhandled exception: boom"] ∧
      ((Logger.handle_error LOG_LEVEL false ⟨false, false⟩ (mkLogger {}) World.empty
            ⟨"St13runtime_error", "boom"⟩ "ctx" []).cerrLines.all
          (fun l => !(strContains l "ctx"))) = true :=
  ⟨rfl, rfl⟩

/-- C4 (amended): on a default-configured logger, `handle_error(e, ctx)`
emits an error-level line containing `e`'s message, followed by the
stack trace and the default-handler line; the context is passed as the
source-file slot with line 0, which the default formatter suppresses,
so `ctx` does not appear in the emitted line. -/
theorem C4_error_line_contains_message (floor : Nat) (global : Bool)
    (tc : TerminalCache) (w : World) (e : Exn) (ctx : String) (bt : List String)
    (hacc : floor ≤ 3) :
    let line1 :=
      "[" ++ consoleLevelText global tc .cerr (mkLogger {}).log_level_colors_ .error
        ++ "] " ++ e.what
    (Logger.handle_error floor global tc (mkLogger {}) w e ctx bt).cerrLines =
        w.cerrLines ++ (line1 :: "Stack trace:" :: bt)
          ++ ["Unhandled exception: " ++ e.what] ∧
      strContains line1 e.what = true := by
  intro line1
  constructor
  · have hfmt : default_formatter .error ctx 0 (renderIterableString e.what) =
        .ok e.what := by
      simp [default_formatter, renderIterableString_eq]
    have hacc3 : floor ≤ LogLevel.rank .error := hacc
    simp [Logger.handle_error, Logger.handle_error_pre, Logger.log, Logger.logRendered,
      Nat.not_lt.mpr hacc3, hfmt, mkLogger, Logger.getLogStream, Logger.writeStream,
      World.writeCerr, mapFind, builtin_default_handler, foldl_writeCerr_cerrLines,
      line1]
  · have h : line1 =
        ("[" ++ consoleLevelText global tc .cerr (mkLogger {}).log_level_colors_ .error
          ++ "] ") ++ e.what := by
      simp [line1, String.append_assoc]
    rw [h]
    exact strContains_append_left _ _

/-- Witness for C4 (amended): concrete run with message `boom`, context
`ctx` and an empty backtrace under disabled coloring. -/
theorem C4_error_line_contains_message_witness :
    (0 : Nat) ≤ 3 ∧
      (Logger.handle_error 0 false ⟨false, false⟩ (mkLogger {}) World.empty
          ⟨"K", "boom"⟩ "ctx" []).cerrLines =
        ["[ERROR] boom", "Stack trace:", "Unhandled exception: boom"] ∧
      strContains "[ERROR] boom" "boom" = true := by
  refine ⟨by decide, ?_, ?_⟩
  · have h := (C4_error_line_contains_message 0 false ⟨false, false⟩ World.empty
      ⟨"K", "boom"⟩ "ctx" [] (by decide)).1
    simpa [World.empty, consoleLevelText, check_color, TerminalCache.is_terminal]
      using h
  · have h := (C4_error_line_contains_message 0 false ⟨false, false⟩ World.empty
      ⟨"K", "boom"⟩ "ctx" [] (by decide)).2
    simpa [consoleLevelText, check_color, TerminalCache.is_terminal] using h

theorem mapInsert_twice_find (k : String) (h1 h2 : Handler) :
    ∀ m : List (String × Handler),
      mapFind (mapInsert (mapInsert m k h1) k h2) k = some h2 := by
  intro m
  induction m with
  | nil => simp [mapInsert, mapFind]
  | cons kv rest ih =>
    obtain ⟨k', v⟩ := kv
    by_cases hk : k' = k
    · simp [mapInsert, mapFind, hk]
    · simp [mapInsert, mapFind, hk, ih]

/-- C7: `handle_error` dispatch.  After the error log and the stack
trace (`handle_error_pre`), the handler found in the registry under the
exception's kind identifier is invoked on the exception — so the default
handler is not — and when no handler is registered for that key the
default handler is invoked; registering twice under one key leaves the
last handler (the `unordered_map` assignment overwrites), and the
built-in default handler of a fresh logger writes
`Unhandled exception: <what>` to the error stream. -/
theorem C7_handler_dispatch (floor : Nat) (global : Bool) (tc : TerminalCache)
    (lg : Logger) (w : World) (e : Exn) (ctx : String) (bt : List String) :
    (∀ h : Handler, mapFind lg.handlers_ e.kindName = some h →
        Logger.handle_error floor global tc lg w e ctx bt =
          h e (lg.handle_error_pre floor global tc w e ctx bt)) ∧
      (mapFind lg.handlers_ e.kindName = none →
        Logger.handle_error floor global tc lg w e ctx bt =
          lg.default_handler_ e (lg.handle_error_pre floor global tc w e ctx bt)) ∧
      (∀ (k : String) (h1 h2 : Handler),
        mapFind ((lg.register_error_handler k h1).register_error_handler k
            h2).handlers_ k = some h2) ∧
      ∀ w' : World,
        (mkLogger {}).default_handler_ e w' =
          w'.writeCerr ("Unhandled exception: " ++ e.what) := by
  refine ⟨?_, ?_, ?_, ?_⟩
  · intro h hfind
    simp [Logger.handle_error, hfind]
  · intro hfind
    simp [Logger.handle_error, hfind]
  · intro k h1 h2
    simp [Logger.register_error_handler, mapInsert_twice_find]
  · intro w'
    simp [mkLogger, builtin_default_handler]

/-- The handler spy installed by the C7 witness: it records its
invocation by a line on the error stream. -/
def spyHandler : Handler := fun _ w => w.writeCerr "spy called"

/-- Witness for C7: with `spyHandler` registered under the key `K`, an
exception whose kind identifier is `K` is dispatched to `spyHandler`. -/
theorem C7_handler_dispatch_witness :
    mapFind ((mkLogger {}).register_error_handler "K" spyHandler).handlers_ "K" =
        some spyHandler ∧
      Logger.handle_error 0 false ⟨false, false⟩
          ((mkLogger {}).register_error_handler "K" spyHandler) World.empty
          ⟨"K", "boom"⟩ "c" [] =
        spyHandler ⟨"K", "boom"⟩
          (((mkLogger {}).register_error_handler "K"
              spyHandler).handle_error_pre 0 false ⟨false, false⟩ World.empty
            ⟨"K", "boom"⟩ "c" []) :=
  ⟨rfl,
    (C7_handler_dispatch 0 false ⟨false, false⟩
        ((mkLogger {}).register_error_handler "K" spyHandler) World.empty ⟨"K", "boom"⟩
        "c" []).1 spyHandler rfl⟩

/-- C8 counterexample: a logger constructed with the open file sink
`a.log` and then given `set_log_file("b.log")` does not switch to
`b.log`: `ofstream::open` on an already open stream fails and sets
failbit, so the sink keeps the path `a.log`, enters the fail state, and
a subsequent File-mode record is written neither to `b.log` nor to
`a.log` nor to the error stream — the previous sink is not closed or
replaced and subsequent file writes do not go to the new path. -/
theorem C8_counterexample :
    ((mkLogger { output_mode := .File, log_file_name := "a.log" }).set_log_file
          "b.log").log_file_.path = "a.log" ∧
      ((mkLogger { output_mode := .File, log_file_name := "a.log" }).set_log_file
          "b.log").log_file_.failed = true ∧
      (Logger.log LOG_LEVEL false ⟨false, false⟩
          ((mkLogger { output_mode := .File, log_file_name := "a.log" }).set_log_file
            "b.log") World.empty .info "" 0 "m").fs "b.log" = [] ∧
      (Logger.log LOG_LEVEL false ⟨false, false⟩
          ((mkLogger { output_mode := .File, log_file_name := "a.log" }).set_log_file
            "b.log") World.empty .info "" 0 "m").fs "a.log" = [] ∧
      (Logger.log LOG_LEVEL false ⟨false, false⟩
          ((mkLogger { output_mode := .File, log_file_name := "a.log" }).set_log_file
            "b.log") World.empty .info "" 0 "m").cerrLines = [] :=
  ⟨rfl, rfl, rfl, rfl, rfl⟩

/-- C8 (amended): `set_log_file` on an already open sink does not close
or replace it — the `open` call fails, leaving the sink open on its
original path but in the fail state, so subsequent file-sink writes are
silently dropped; only on a closed sink does `set_log_file` open the
new path, in append mode (and `set_log_file` itself never writes or
truncates any file content, so prior content is neither duplicated nor
truncated). -/
theorem C8_set_log_file_semantics (lg : Logger) (p : String) :
    (lg.log_file_.isOpen = true →
        (lg.set_log_file p).log_file_ = { lg.log_file_ with failed := true } ∧
          ∀ (w : World) (l : String),
            w.writeFile (lg.set_log_file p).log_file_ l = w) ∧
      (lg.log_file_.isOpen = false →
        (lg.set_log_file p).log_file_ =
          { isOpen := true, failed := false, path := p }) := by
  constructor
  · intro hopen
    constructor
    · simp [Logger.set_log_file, OFStream.openApp, hopen]
    · intro w l
      simp [Logger.set_log_file, OFStream.openApp, hopen, World.writeFile]
  · intro hclosed
    simp [Logger.set_log_file, OFStream.openApp, hclosed]

/-- Witness for C8 (amended): the constructor-opened sink at `a.log`
rejects the reopen on `b.log` and drops a subsequent write; a closed
sink opens on `b.log`. -/
theorem C8_set_log_file_semantics_witness :
    (mkLogger { output_mode := .File, log_file_name := "a.log" }).log_file_.isOpen =
        true ∧
      ((mkLogger { output_mode := .File, log_file_name := "a.log" }).set_log_file
          "b.log").log_file_ =
        { isOpen := true, failed := true, path := "a.log" } ∧
      World.empty.writeFile
          ((mkLogger { output_mode := .File, log_file_name := "a.log" }).set_log_file
            "b.log").log_file_ "x" = World.empty ∧
      (mkLogger {}).log_file_.isOpen = false ∧
      ((mkLogger {}).set_log_file "b.log").log_file_ =
        { isOpen := true, failed := false, path := "b.log" } :=
  ⟨rfl,
    ((C8_set_log_file_semantics
        (mkLogger { output_mode := .File, log_file_name := "a.log" }) "b.log").1
      rfl).1,
    ((C8_set_log_file_semantics
        (mkLogger { output_mode := .File, log_file_name := "a.log" }) "b.log").1
      rfl).2 World.empty "x",
    rfl,
    (C8_set_log_file_semantics (mkLogger {}) "b.log").2 rfl⟩

theorem runEvents_cons (s : AsyncState) (e : AEvent) (evs : List AEvent) :
    runEvents s (e :: evs) = runEvents (applyEvent s e) evs := rfl

theorem producerEvents_enq (r : LogEntry) (evs : List AEvent) :
    producerEvents (.enq r :: evs) = .enq r :: producerEvents evs := rfl

theorem producerEvents_stop (evs : List AEvent) :
    producerEvents (.stop :: evs) = .stop :: producerEvents evs := rfl

theorem producerEvents_work (evs : List AEvent) :
    producerEvents (.work :: evs) = producerEvents evs := rfl

theorem async_run_inv (rs : List LogEntry) :
    ∀ (evs : List AEvent) (s : AsyncState),
      (s.workerExited = true → s.stopped = true ∧ s.queue = []) →
      ((s.stopped = true ∧ producerEvents evs = [] ∧ s.sink ++ s.queue = rs) ∨
        (s.stopped = false ∧
          ∃ rs2, producerEvents evs = rs2.map AEvent.enq ++ [AEvent.stop] ∧
            s.sink ++ s.queue ++ rs2 = rs)) →
      (runEvents s evs).workerExited = true →
      (runEvents s evs).sink = rs ∧ (runEvents s evs).queue = [] := by
  intro evs
  induction evs with
  | nil =>
    intro s hinv hdisj hex
    obtain ⟨hstop, hq⟩ := hinv hex
    rcases hdisj with ⟨_, _, hsum⟩ | ⟨hns, _⟩
    · refine ⟨?_, hq⟩
      show s.sink = rs
      simpa [hq] using hsum
    · rw [hns] at hstop
      cases hstop
  | cons e evs ih =>
    intro s hinv hdisj hex
    rw [runEvents_cons] at hex ⊢
    cases e with
    | enq r =>
      rcases hdisj with ⟨_, hpe, _⟩ | ⟨hns, rs2, hpe, hsum⟩
      · rw [producerEvents_enq] at hpe
        cases hpe
      · rw [producerEvents_enq] at hpe
        cases rs2 with
        | nil => simp at hpe
        | cons r0 rs2 =>
          simp only [List.map_cons, List.cons_append, List.cons.injEq,
            AEvent.enq.injEq] at hpe
          obtain ⟨hr, hpe'⟩ := hpe
          subst hr
          have hwe : s.workerExited = false := by
            cases hwe0 : s.workerExited
            · rfl
            · exact absurd (hinv hwe0).1 (by simp [hns])
          apply ih
          · intro hx
            rw [show (applyEvent s (.enq r)).workerExited = s.workerExited from rfl,
              hwe] at hx
            cases hx
          · refine Or.inr ⟨hns, rs2, hpe', ?_⟩
            show s.sink ++ (s.queue ++ [r]) ++ rs2 = rs
            rw [← hsum]
            simp [List.append_assoc]
          · exact hex
    | stop =>
      rcases hdisj with ⟨_, hpe, _⟩ | ⟨hns, rs2, hpe, hsum⟩
      · rw [producerEvents_stop] at hpe
        cases hpe
      · rw [producerEvents_stop] at hpe
        cases rs2 with
        | cons r0 rs2 => simp at hpe
        | nil =>
          simp only [List.map_nil, List.nil_append, List.cons.injEq] at hpe
          apply ih
          · intro hx
            obtain ⟨hst', _⟩ := hinv hx
            rw [hns] at hst'
            cases hst'
          · refine Or.inl ⟨rfl, hpe.2, ?_⟩
            show s.sink ++ s.queue = rs
            simpa using hsum
          · exact hex
    | work =>
      have hpe : producerEvents (AEvent.work :: evs) = producerEvents evs :=
        producerEvents_work evs
      by_cases hwe : s.workerExited = true
      · have hs' : applyEvent s .work = s := by
          simp [applyEvent, hwe]
        rw [hs'] at hex ⊢
        apply ih s hinv _ hex
        rcases hdisj with ⟨h1, h2, h3⟩ | ⟨h1, rs2, h2, h3⟩
        · exact Or.inl ⟨h1, by rwa [hpe] at h2, h3⟩
        · exact Or.inr ⟨h1, rs2, by rwa [hpe] at h2, h3⟩
      · by_cases hcond : s.queue ≠ [] ∨ s.stopped = true
        · have hs' : applyEvent s .work =
              { queue := [], sink := s.sink ++ s.queue, stopped := s.stopped,
                workerExited := s.stopped } := by
            simp [applyEvent, hwe, hcond]
          rw [hs'] at hex ⊢
          apply ih
          · intro hx
            exact ⟨hx, rfl⟩
          · rcases hdisj with ⟨h1, h2, h3⟩ | ⟨h1, rs2, h2, h3⟩
            · refine Or.inl ⟨h1, by rwa [hpe] at h2, ?_⟩
              simpa using h3
            · refine Or.inr ⟨h1, rs2, by rwa [hpe] at h2, ?_⟩
              simpa [List.append_assoc] using h3
          · exact hex
        · have hs' : applyEvent s .work = s := by
            simp [applyEvent, hwe, hcond]
          rw [hs'] at hex ⊢
          apply ih s hinv _ hex
          rcases hdisj with ⟨h1, h2, h3⟩ | ⟨h1, rs2, h2, h3⟩
          · exact Or.inl ⟨h1, by rwa [hpe] at h2, h3⟩
          · exact Or.inr ⟨h1, rs2, by rwa [hpe] at h2, h3⟩

/-- C3: single-producer FIFO drain guarantee of the `AsyncLogger`.  For
any interleaving of atomic events whose producer subsequence is exactly
the N submissions `r1..rN` in order followed by the destructor's stop
signal, once the worker has exited the wrapped `Logger::log` has
received exactly `r1..rN`, in submission order, and the queue is empty:
no record is dropped on shutdown. -/
theorem C3_async_fifo_drain (rs : List LogEntry) (evs : List AEvent)
    (hp : producerEvents evs = rs.map AEvent.enq ++ [AEvent.stop])
    (hx : (runEvents AsyncState.init evs).workerExited = true) :
    (runEvents AsyncState.init evs).sink = rs ∧
      (runEvents AsyncState.init evs).queue = [] := by
  apply async_run_inv rs evs AsyncState.init
  · intro h
    simp [AsyncState.init] at h
  · exact Or.inr ⟨rfl, rs, hp, by simp [AsyncState.init]⟩
  · exact hx

/-- First concrete record of the C3 witness run. -/
def entryA : LogEntry := ⟨.info, "a.cpp", 1, "m1"⟩

/-- Second concrete record of the C3 witness run. -/
def entryB : LogEntry := ⟨.warn, "b.cpp", 2, "m2"⟩

/-- The C3 witness interleaving: the worker wakes once between the two
submissions and once after the stop signal. -/
def demoEvents : List AEvent :=
  [.enq entryA, .work, .enq entryB, .stop, .work]

/-- Witness for C3: on the concrete interleaving `demoEvents` the worker
exits and the wrapped logger has received exactly the two submitted
records in order. -/
theorem C3_async_fifo_drain_witness :
    producerEvents demoEvents = [entryA, entryB].map AEvent.enq ++ [AEvent.stop] ∧
      (runEvents AsyncState.init demoEvents).workerExited = true ∧
      (runEvents AsyncState.init demoEvents).sink = [entryA, entryB] ∧
      (runEvents AsyncState.init demoEvents).queue = [] :=
  ⟨rfl, rfl, (C3_async_fifo_drain [entryA, entryB] demoEvents rfl rfl).1,
    (C3_async_fifo_drain [entryA, entryB] demoEvents rfl rfl).2⟩

end Colorlog
